import Mathlib

/-!
Shallow embedding of `Home_Assistant/custom_components/ha_switchplate.py`
(the HASwitchPlate MQTT integration) and proofs about it.

Python strings are modelled as `List Char` (`PyStr`): slicing `s[:-1]` is
`List.dropLast`, `s[n:]` is `List.drop n`, `startswith` is list-prefix,
`len` is `List.length`, and string truthiness is non-emptiness.
MQTT publishes are modelled as the list of `(topic, payload)` pairs a call
issues, in call order; firing an event on the bus is modelled as returning
`some event`.
-/

set_option autoImplicit false

/-- Python `str`, modelled as its list of characters. -/
abbrev PyStr := List Char

/-- Literal helper: the character list of a Lean string literal. -/
def pystr (s : String) : PyStr := s.data

/-- `PAYLOAD_ON = 'ON'` (source line 66). -/
def PAYLOAD_ON : PyStr := pystr "ON"

/-- `PAYLOAD_OFF = 'OFF'` (source line 67). -/
def PAYLOAD_OFF : PyStr := pystr "OFF"

/-- `DEFAULT_FONT_PLACEHOLDER = -1` (source line 81). -/
def DEFAULT_FONT_PLACEHOLDER : Int := -1

/-- `COMMAND_TOPIC_TEMPLATE = '{prefix}/{node}/command/'` applied via
`.format(prefix=..., node=...)` (source lines 60, 252, 257). -/
def COMMAND_TOPIC_TEMPLATE (pfx node : PyStr) : PyStr :=
  pfx ++ pystr "/" ++ node ++ pystr "/command/"

/-- `STATE_TOPIC_TEMPLATE = '{prefix}/{node}/state/#'` applied via
`.format(prefix=..., node=...)` (source lines 61, 253). -/
def STATE_TOPIC_TEMPLATE (pfx node : PyStr) : PyStr :=
  pfx ++ pystr "/" ++ node ++ pystr "/state/#"

/-- An MQTT payload: Python passes either a `str` or an `int` to
`mqtt.publish`. -/
inductive Payload where
  | str (s : PyStr)
  | int (n : Int)
deriving DecidableEq

/-- The event data fired with `EVENT_HASP_BUTTON` (source lines 148-152). -/
structure ButtonEvent where
  node_name : PyStr
  button_id : PyStr
  button_action : PyStr
deriving DecidableEq

/-- The `HASwitchPlate` controller object (source lines 110-120):
`_name`, `_command_topic`, `_state_topic` (None for groups), `_is_group`. -/
structure HASwitchPlate where
  name : PyStr
  command_topic : PyStr
  state_topic : Option PyStr
  is_group : Bool
deriving DecidableEq

/-- `HASwitchPlate._get_base_command_topic` (source lines 174-177):
`'{command}{button_id}'.format(...)`. -/
def HASwitchPlate.get_base_command_topic (self : HASwitchPlate) (button_id : PyStr) : PyStr :=
  self.command_topic ++ button_id

/-- `HASwitchPlate._get_font_size` (source lines 179-189). -/
def HASwitchPlate.get_font_size (message : PyStr) : Int :=
  let text_length := message.length
  if text_length ≤ 6 then 3
  else if text_length ≤ 10 then 2
  else if text_length ≤ 15 then 1
  else 0

/-- `HASwitchPlate.state_message_received` (source lines 133-152).
Returns the `ButtonEvent` fired on the bus, or `none` when the message is
discarded (after a log warning/error).  The handler is only ever installed
by `subscribe` (lines 122-131) for non-group records, whose `_state_topic`
is always a string; the `none` branch of the match is unreachable in the
source (a group never subscribes). -/
def HASwitchPlate.state_message_received (self : HASwitchPlate) (topic payload : PyStr) :
    Option ButtonEvent :=
  match self.state_topic with
  | none => none
  | some st =>
    let state_topic_root := st.dropLast
    if ¬ state_topic_root <+: topic then
      none
    else if ¬ (payload = PAYLOAD_ON ∨ payload = PAYLOAD_OFF) then
      none
    else
      some { node_name := self.name
             button_id := topic.drop state_topic_root.length
             button_action := payload }

/-- `HASwitchPlate.update_colors` (source lines 154-159): `background` and
`foreground` come from `call.data.get(...)`, so each is either absent
(`None`) or a string; `if background:` / `if foreground:` test Python
truthiness (present and non-empty). Returns the publishes issued, in order. -/
def HASwitchPlate.update_colors (self : HASwitchPlate) (button_id : PyStr)
    (background foreground : Option PyStr) : List (PyStr × Payload) :=
  let base_topic := self.get_base_command_topic button_id
  (match background with
   | some b => if b.isEmpty then [] else [(base_topic ++ pystr ".bco", Payload.str b)]
   | none => []) ++
  (match foreground with
   | some f => if f.isEmpty then [] else [(base_topic ++ pystr ".pco", Payload.str f)]
   | none => [])

/-- Python treats `bool` as `int`: `True == 1`, `False == 0`.  Used to model
the source's comparison `update_font != DEFAULT_FONT_PLACEHOLDER` of a bool
against `-1` (source line 167). -/
def pyBoolAsInt (b : Bool) : Int := if b then 1 else 0

/-- `HASwitchPlate.update_text` (source lines 161-172).  Note the source's
`elif update_font != DEFAULT_FONT_PLACEHOLDER:` compares the *bool*
`update_font` with `-1` (Python bool-int comparison), not `font_size`.
Returns the publishes issued, in order (`.txt` first, then `.font` when a
font size was determined). -/
def HASwitchPlate.update_text (self : HASwitchPlate) (button_id message : PyStr)
    (font_size : Int) (update_font : Bool) : List (PyStr × Payload) :=
  let base_topic := self.get_base_command_topic button_id
  let actual_font_size : Int :=
    if update_font ∧ font_size = DEFAULT_FONT_PLACEHOLDER then
      HASwitchPlate.get_font_size message
    else if pyBoolAsInt update_font ≠ DEFAULT_FONT_PLACEHOLDER then
      font_size
    else
      DEFAULT_FONT_PLACEHOLDER
  [(base_topic ++ pystr ".txt", Payload.str (pystr "\"" ++ message ++ pystr "\""))] ++
  (if actual_font_size ≠ DEFAULT_FONT_PLACEHOLDER then
    [(base_topic ++ pystr ".font", Payload.int actual_font_size)]
  else
    [])

/-- One configuration entry of the `nodes` list (source lines 41-49,
247-249): a required `name` and an optional `group_name`. -/
structure NodeConfig where
  name : PyStr
  group_name : Option PyStr

/-- First-match lookup in the device registry, modelling Python
`dict.__contains__` / `dict.__getitem__` over the insertion-ordered
registry. -/
def lookupDevice : List (PyStr × HASwitchPlate) → PyStr → Option HASwitchPlate
  | [], _ => none
  | (k, v) :: rest, n => if k = n then some v else lookupDevice rest n

/-- The body of the `for node in nodes:` registration loop of `async_setup`
(source lines 247-258): register the individual node if its name is absent,
then register the group alias if `group_name` is truthy and absent.
`if group_name and group_name not in devices:` — Python truthiness means
`group_name` must be present and non-empty. -/
def process_node (pfx : PyStr) (devices : List (PyStr × HASwitchPlate)) (node : NodeConfig) :
    List (PyStr × HASwitchPlate) :=
  let devices :=
    if lookupDevice devices node.name = none then
      devices ++ [(node.name,
        { name := node.name
          command_topic := COMMAND_TOPIC_TEMPLATE pfx node.name
          state_topic := some (STATE_TOPIC_TEMPLATE pfx node.name)
          is_group := false })]
    else devices
  match node.group_name with
  | some g =>
    if g ≠ [] ∧ lookupDevice devices g = none then
      devices ++ [(g,
        { name := g
          command_topic := COMMAND_TOPIC_TEMPLATE pfx g
          state_topic := none
          is_group := true })]
    else devices
  | none => devices

/-- The registration phase of `async_setup` (source lines 244-258): fold the
loop body over the configured nodes, starting from the empty `devices`
dict. -/
def build_devices (pfx : PyStr) (nodes : List NodeConfig) : List (PyStr × HASwitchPlate) :=
  nodes.foldl (process_node pfx) []

/-- `handle_update_colors` (source lines 195-206): if the node name is not
in the registry, log an error and return (no publishes); otherwise dispatch
to the device's `update_colors`. -/
def handle_update_colors (registry : List (PyStr × HASwitchPlate))
    (node_name button_id : PyStr) (background foreground : Option PyStr) :
    List (PyStr × Payload) :=
  match lookupDevice registry node_name with
  | none => []
  | some device => device.update_colors button_id background foreground

/-- `handle_update_message` (source lines 208-220): if the node name is not
in the registry, log an error and return (no publishes); otherwise dispatch
to the device's `update_text`. -/
def handle_update_message (registry : List (PyStr × HASwitchPlate))
    (node_name button_id message : PyStr) (font_size : Int) (update_font : Bool) :
    List (PyStr × Payload) :=
  match lookupDevice registry node_name with
  | none => []
  | some device => device.update_text button_id message font_size update_font

/-! ## Helper lemmas -/

/-- The font-size policy never returns the `-1` placeholder. -/
theorem get_font_size_ne_placeholder (m : PyStr) :
    HASwitchPlate.get_font_size m ≠ DEFAULT_FONT_PLACEHOLDER := by
  simp only [HASwitchPlate.get_font_size, DEFAULT_FONT_PLACEHOLDER]
  repeat' split
  all_goals omega

/-- A successful registry lookup is preserved by appending entries. -/
theorem lookupDevice_append_some (xs ys : List (PyStr × HASwitchPlate)) (n : PyStr)
    (d : HASwitchPlate) (h : lookupDevice xs n = some d) :
    lookupDevice (xs ++ ys) n = some d := by
  induction xs with
  | nil => simp [lookupDevice] at h
  | cons kv rest ih =>
    obtain ⟨k, v⟩ := kv
    rw [List.cons_append]
    by_cases hk : k = n
    · simp only [lookupDevice, if_pos hk] at h ⊢; exact h
    · simp only [lookupDevice, if_neg hk] at h ⊢; exact ih h

/-- A successful registry lookup is preserved by a conditional append. -/
theorem lookupDevice_ite_append_some (c : Prop) [Decidable c]
    (e : PyStr × HASwitchPlate) (xs : List (PyStr × HASwitchPlate)) (n : PyStr)
    (d : HASwitchPlate) (h : lookupDevice xs n = some d) :
    lookupDevice (if c then xs ++ [e] else xs) n = some d := by
  split
  · exact lookupDevice_append_some _ _ _ _ h
  · exact h

/-- One iteration of the registration loop never replaces an existing
registry entry. -/
theorem process_node_preserves (pfx : PyStr) (devices : List (PyStr × HASwitchPlate))
    (node : NodeConfig) (n : PyStr) (d : HASwitchPlate)
    (h : lookupDevice devices n = some d) :
    lookupDevice (process_node pfx devices node) n = some d := by
  unfold process_node
  cases node.group_name with
  | none => exact lookupDevice_ite_append_some _ _ _ _ _ h
  | some g =>
    exact lookupDevice_ite_append_some _ _ _ _ _
      (lookupDevice_ite_append_some _ _ _ _ _ h)

/-- Folding the registration loop over further configuration entries never
replaces an existing registry entry. -/
theorem foldl_process_node_preserves (pfx : PyStr) (l : List NodeConfig)
    (acc : List (PyStr × HASwitchPlate)) (n : PyStr) (d : HASwitchPlate)
    (h : lookupDevice acc n = some d) :
    lookupDevice (l.foldl (process_node pfx) acc) n = some d := by
  induction l generalizing acc with
  | nil => simpa using h
  | cons x xs ih => exact ih _ (process_node_preserves pfx acc x n d h)

/-! ## Claims -/

/-- Claim C1: for an individual device whose state pattern is a root
followed by the wildcard `#`, a message on a topic extending that root with
payload exactly `ON` or `OFF` decodes to exactly one button-press event
`(nodeName, topic minus root, payload)`. -/
theorem C1_state_decoder_emits_event (name ct root suffix payload : PyStr)
    (hpay : payload = PAYLOAD_ON ∨ payload = PAYLOAD_OFF) :
    HASwitchPlate.state_message_received
      { name := name, command_topic := ct,
        state_topic := some (root ++ pystr "#"), is_group := false }
      (root ++ suffix) payload =
    some { node_name := name, button_id := suffix, button_action := payload } := by
  have hdrop : (root ++ pystr "#").dropLast = root := by
    rw [show pystr "#" = ['#'] from rfl, List.dropLast_concat]
  simp only [HASwitchPlate.state_message_received, hdrop]
  rw [if_neg (by simp [List.prefix_append]), if_neg (not_not_intro hpay)]
  simp [List.drop_left]

/-- Claim C1 witness: decoding `hasp/kitchen/state/p1b3` with payload `ON`
for device `kitchen` yields the event `(kitchen, p1b3, ON)`. -/
theorem C1_state_decoder_emits_event_witness :
    HASwitchPlate.state_message_received
      { name := pystr "kitchen", command_topic := pystr "hasp/kitchen/command/",
        state_topic := some (pystr "hasp/kitchen/state/#"), is_group := false }
      (pystr "hasp/kitchen/state/p1b3") (pystr "ON") =
    some { node_name := pystr "kitchen", button_id := pystr "p1b3",
           button_action := pystr "ON" } := by
  have h := C1_state_decoder_emits_event (pystr "kitchen") (pystr "hasp/kitchen/command/")
    (pystr "hasp/kitchen/state/") (pystr "p1b3") (pystr "ON") (Or.inl rfl)
  exact h

/-- Claim C2: the font-size policy returns 3 for length at most 6, 2 for
lengths 7 to 10, 1 for lengths 11 to 15, 0 beyond 15; it is total and
monotonically non-increasing in the length. -/
theorem C2_font_size_policy (m₁ m₂ : PyStr) :
    (m₁.length ≤ 6 → HASwitchPlate.get_font_size m₁ = 3) ∧
    (7 ≤ m₁.length → m₁.length ≤ 10 → HASwitchPlate.get_font_size m₁ = 2) ∧
    (11 ≤ m₁.length → m₁.length ≤ 15 → HASwitchPlate.get_font_size m₁ = 1) ∧
    (15 < m₁.length → HASwitchPlate.get_font_size m₁ = 0) ∧
    (m₁.length ≤ m₂.length →
      HASwitchPlate.get_font_size m₂ ≤ HASwitchPlate.get_font_size m₁) := by
  simp only [HASwitchPlate.get_font_size]
  refine ⟨?_, ?_, ?_, ?_, ?_⟩ <;> intros <;> (repeat' split) <;> omega

/-- Claim C2 witness: concrete values in each band, including the empty
string, and one monotonicity instance. -/
theorem C2_font_size_policy_witness :
    HASwitchPlate.get_font_size (pystr "") = 3 ∧
    HASwitchPlate.get_font_size (pystr "abcdefgh") = 2 ∧
    HASwitchPlate.get_font_size (pystr "abcdefghijkl") = 1 ∧
    HASwitchPlate.get_font_size (pystr "abcdefghijklmnop") = 0 ∧
    HASwitchPlate.get_font_size (pystr "abcdefghijklmnop") ≤
      HASwitchPlate.get_font_size (pystr "") :=
  ⟨(C2_font_size_policy (pystr "") (pystr "")).1 (by decide),
   (C2_font_size_policy (pystr "abcdefgh") (pystr "")).2.1 (by decide) (by decide),
   (C2_font_size_policy (pystr "abcdefghijkl") (pystr "")).2.2.1 (by decide) (by decide),
   (C2_font_size_policy (pystr "abcdefghijklmnop") (pystr "")).2.2.2.1 (by decide),
   (C2_font_size_policy (pystr "") (pystr "abcdefghijklmnop")).2.2.2.2 (by decide)⟩

/-- Claim C6: a message whose topic does not start with the device's
state-topic root (the pattern minus its trailing wildcard), or whose
payload is not exactly `ON` or `OFF`, is discarded: no event is emitted. -/
theorem C6_mismatch_discarded (name ct st topic payload : PyStr) :
    (¬ st.dropLast <+: topic →
      HASwitchPlate.state_message_received
        { name := name, command_topic := ct, state_topic := some st, is_group := false }
        topic payload = none) ∧
    (payload ≠ PAYLOAD_ON → payload ≠ PAYLOAD_OFF →
      HASwitchPlate.state_message_received
        { name := name, command_topic := ct, state_topic := some st, is_group := false }
        topic payload = none) := by
  constructor
  · intro h
    simp only [HASwitchPlate.state_message_received]
    rw [if_pos h]
  · intro h1 h2
    simp [HASwitchPlate.state_message_received, h1, h2]

/-- Claim C6 witness: a topic outside the root is discarded even with a
valid payload, and payload `TOGGLE` is discarded even on a valid topic. -/
theorem C6_mismatch_discarded_witness :
    HASwitchPlate.state_message_received
      { name := pystr "kitchen", command_topic := pystr "hasp/kitchen/command/",
        state_topic := some (pystr "hasp/kitchen/state/#"), is_group := false }
      (pystr "other/topic") (pystr "ON") = none ∧
    HASwitchPlate.state_message_received
      { name := pystr "kitchen", command_topic := pystr "hasp/kitchen/command/",
        state_topic := some (pystr "hasp/kitchen/state/#"), is_group := false }
      (pystr "hasp/kitchen/state/p1b3") (pystr "TOGGLE") = none :=
  ⟨(C6_mismatch_discarded (pystr "kitchen") (pystr "hasp/kitchen/command/")
      (pystr "hasp/kitchen/state/#") (pystr "other/topic") (pystr "ON")).1 (by decide),
   (C6_mismatch_discarded (pystr "kitchen") (pystr "hasp/kitchen/command/")
      (pystr "hasp/kitchen/state/#") (pystr "hasp/kitchen/state/p1b3")
      (pystr "TOGGLE")).2 (by decide) (by decide)⟩

/-- Claim C10: the command-topic namer is deterministic (equal inputs give
equal outputs) and, for a fixed topic prefix, injective in the node name. -/
theorem C10_topic_namer_deterministic_injective (p₁ n₁ p₂ n₂ : PyStr) :
    (p₁ = p₂ → n₁ = n₂ → COMMAND_TOPIC_TEMPLATE p₁ n₁ = COMMAND_TOPIC_TEMPLATE p₂ n₂) ∧
    (p₁ = p₂ → COMMAND_TOPIC_TEMPLATE p₁ n₁ = COMMAND_TOPIC_TEMPLATE p₂ n₂ → n₁ = n₂) := by
  constructor
  · rintro rfl rfl; rfl
  · rintro rfl h
    unfold COMMAND_TOPIC_TEMPLATE at h
    exact List.append_cancel_left (List.append_cancel_right h)

/-- Claim C10 witness: determinism and injectivity instantiated at prefix
`hasp` and name `kitchen`. -/
theorem C10_topic_namer_witness :
    COMMAND_TOPIC_TEMPLATE (pystr "hasp") (pystr "kitchen") =
      COMMAND_TOPIC_TEMPLATE (pystr "hasp") (pystr "kitchen") ∧
    pystr "kitchen" = pystr "kitchen" :=
  ⟨(C10_topic_namer_deterministic_injective (pystr "hasp") (pystr "kitchen")
      (pystr "hasp") (pystr "kitchen")).1 rfl rfl,
   (C10_topic_namer_deterministic_injective (pystr "hasp") (pystr "kitchen")
      (pystr "hasp") (pystr "kitchen")).2 rfl (by decide)⟩

/-- Claim C3 (code bug): the claim says no `.font` message is ever
published when `update_font` is false, but the source's guard on line 167
compares the bool `update_font` with the int sentinel `-1` — a comparison
that is always true — so an explicit `font_size` is published even with
`update_font = False`.  This theorem evaluates the embedded code at the
failing input: `update_text(p1b3, Hi, font_size=1, update_font=False)`
publishes `.font` = 1. -/
theorem C3_font_published_despite_update_font_false :
    HASwitchPlate.update_text
      { name := pystr "kitchen", command_topic := pystr "hasp/kitchen/command/",
        state_topic := some (pystr "hasp/kitchen/state/#"), is_group := false }
      (pystr "p1b3") (pystr "Hi") 1 false =
    [(pystr "hasp/kitchen/command/p1b3.txt", Payload.str (pystr "\"Hi\"")),
     (pystr "hasp/kitchen/command/p1b3.font", Payload.int 1)] := by decide

/-- Claim C4: with `update_font = true`, an explicit font size (any value
other than the `-1` placeholder) is published to `.font` as supplied, and
with no explicit font size (the placeholder default) the policy-computed
size is published. -/
theorem C4_update_font_true_publishes (d : HASwitchPlate) (bid msg : PyStr) (fs : Int)
    (hfs : fs ≠ DEFAULT_FONT_PLACEHOLDER) :
    d.update_text bid msg fs true =
      [(d.get_base_command_topic bid ++ pystr ".txt",
        Payload.str (pystr "\"" ++ msg ++ pystr "\"")),
       (d.get_base_command_topic bid ++ pystr ".font", Payload.int fs)] ∧
    d.update_text bid msg DEFAULT_FONT_PLACEHOLDER true =
      [(d.get_base_command_topic bid ++ pystr ".txt",
        Payload.str (pystr "\"" ++ msg ++ pystr "\"")),
       (d.get_base_command_topic bid ++ pystr ".font",
        Payload.int (HASwitchPlate.get_font_size msg))] := by
  have hfs' : fs ≠ -1 := by simpa [DEFAULT_FONT_PLACEHOLDER] using hfs
  constructor
  · simp [HASwitchPlate.update_text, pyBoolAsInt, DEFAULT_FONT_PLACEHOLDER, hfs']
  · simp [HASwitchPlate.update_text, pyBoolAsInt,
          get_font_size_ne_placeholder msg]

/-- Claim C4 witness: `update_text(p1b3, Hi, font_size=1, update_font=True)`
publishes `.font` = 1 (explicit wins), and the same call with the
placeholder default publishes the computed `.font` = 3. -/
theorem C4_update_font_true_publishes_witness :
    HASwitchPlate.update_text
      { name := pystr "kitchen", command_topic := pystr "hasp/kitchen/command/",
        state_topic := some (pystr "hasp/kitchen/state/#"), is_group := false }
      (pystr "p1b3") (pystr "Hi") 1 true =
    [(pystr "hasp/kitchen/command/p1b3.txt", Payload.str (pystr "\"Hi\"")),
     (pystr "hasp/kitchen/command/p1b3.font", Payload.int 1)] ∧
    HASwitchPlate.update_text
      { name := pystr "kitchen", command_topic := pystr "hasp/kitchen/command/",
        state_topic := some (pystr "hasp/kitchen/state/#"), is_group := false }
      (pystr "p1b3") (pystr "Hi") DEFAULT_FONT_PLACEHOLDER true =
    [(pystr "hasp/kitchen/command/p1b3.txt", Payload.str (pystr "\"Hi\"")),
     (pystr "hasp/kitchen/command/p1b3.font", Payload.int 3)] := by
  have h := C4_update_font_true_publishes
    { name := pystr "kitchen", command_topic := pystr "hasp/kitchen/command/",
      state_topic := some (pystr "hasp/kitchen/state/#"), is_group := false }
    (pystr "p1b3") (pystr "Hi") 1 (by decide)
  exact ⟨h.1, h.2⟩

/-- Claim C5: registration is first-registered-wins — once a name resolves
to a record in the registry built from some configuration entries,
processing any further entries (including a group registration colliding
with that name) leaves lookups for that name resolving to the same
record. -/
theorem C5_first_registered_wins (pfx : PyStr) (nodes₁ nodes₂ : List NodeConfig)
    (n : PyStr) (d : HASwitchPlate)
    (h : lookupDevice (build_devices pfx nodes₁) n = some d) :
    lookupDevice (build_devices pfx (nodes₁ ++ nodes₂)) n = some d := by
  unfold build_devices at h ⊢
  rw [List.foldl_append]
  exact foldl_process_node_preserves pfx nodes₂ _ n d h

/-- Claim C5 witness: after registering node `kitchen`, a later entry whose
`group_name` is also `kitchen` does not replace it — lookup still yields
the individual (state-subscribed, non-group) record. -/
theorem C5_first_registered_wins_witness :
    lookupDevice (build_devices (pystr "hasp") [{ name := pystr "kitchen", group_name := none }])
        (pystr "kitchen") =
      some { name := pystr "kitchen", command_topic := pystr "hasp/kitchen/command/",
             state_topic := some (pystr "hasp/kitchen/state/#"), is_group := false } ∧
    lookupDevice (build_devices (pystr "hasp")
        ([{ name := pystr "kitchen", group_name := none }] ++
         [{ name := pystr "den", group_name := some (pystr "kitchen") }]))
        (pystr "kitchen") =
      some { name := pystr "kitchen", command_topic := pystr "hasp/kitchen/command/",
             state_topic := some (pystr "hasp/kitchen/state/#"), is_group := false } :=
  ⟨by decide,
   C5_first_registered_wins (pystr "hasp")
     [{ name := pystr "kitchen", group_name := none }]
     [{ name := pystr "den", group_name := some (pystr "kitchen") }]
     (pystr "kitchen") _ (by decide)⟩

/-- Claim C7: color publishes are independent and selective — a non-empty
background alone publishes exactly `.bco`, a non-empty foreground alone
publishes exactly `.pco`, and both together publish both, in order. -/
theorem C7_update_colors_selective (d : HASwitchPlate) (bid b f : PyStr)
    (hb : b ≠ []) (hf : f ≠ []) :
    d.update_colors bid (some b) none =
      [(d.get_base_command_topic bid ++ pystr ".bco", Payload.str b)] ∧
    d.update_colors bid none (some f) =
      [(d.get_base_command_topic bid ++ pystr ".pco", Payload.str f)] ∧
    d.update_colors bid (some b) (some f) =
      [(d.get_base_command_topic bid ++ pystr ".bco", Payload.str b),
       (d.get_base_command_topic bid ++ pystr ".pco", Payload.str f)] := by
  refine ⟨?_, ?_, ?_⟩ <;>
    simp [HASwitchPlate.update_colors, List.isEmpty_iff, hb, hf]

/-- Claim C7 witness: `update_colors(p1b3, background=#FF0000)` publishes
only `.bco`, never `.pco`; the symmetric call publishes only `.pco`. -/
theorem C7_update_colors_selective_witness :
    HASwitchPlate.update_colors
      { name := pystr "kitchen", command_topic := pystr "hasp/kitchen/command/",
        state_topic := some (pystr "hasp/kitchen/state/#"), is_group := false }
      (pystr "p1b3") (some (pystr "#FF0000")) none =
      [(pystr "hasp/kitchen/command/p1b3.bco", Payload.str (pystr "#FF0000"))] ∧
    HASwitchPlate.update_colors
      { name := pystr "kitchen", command_topic := pystr "hasp/kitchen/command/",
        state_topic := some (pystr "hasp/kitchen/state/#"), is_group := false }
      (pystr "p1b3") none (some (pystr "#00FF00")) =
      [(pystr "hasp/kitchen/command/p1b3.pco", Payload.str (pystr "#00FF00"))] := by
  have h := C7_update_colors_selective
    { name := pystr "kitchen", command_topic := pystr "hasp/kitchen/command/",
      state_topic := some (pystr "hasp/kitchen/state/#"), is_group := false }
    (pystr "p1b3") (pystr "#FF0000") (pystr "#00FF00") (by decide) (by decide)
  exact ⟨h.1, h.2.1⟩

/-- Claim C8 counterexample: the claim says a violated precondition
(including empty-string arguments) publishes nothing, but `update_text`
with the empty message — which the service schema accepts, since
`vol.Required(str)` admits the empty string — still publishes (the quoted
empty string to `.txt`, and a computed `.font`). -/
theorem C8_counterexample_empty_message_published :
    HASwitchPlate.update_text
      { name := pystr "kitchen", command_topic := pystr "hasp/kitchen/command/",
        state_topic := some (pystr "hasp/kitchen/state/#"), is_group := false }
      (pystr "p1b3") (pystr "") DEFAULT_FONT_PLACEHOLDER true ≠ [] := by decide

/-- Claim C8 (amended): `update_colors` with absent or empty color strings
publishes nothing (the schema only requires at least one color *key*), but
the non-empty-message precondition of `update_message` is not enforced — an
empty message is accepted and its quoted form is still published first to
`.txt`. -/
theorem C8_amended_empty_argument_handling (d : HASwitchPlate) (bid : PyStr)
    (fs : Int) (uf : Bool) :
    d.update_colors bid none none = [] ∧
    d.update_colors bid (some []) (some []) = [] ∧
    (d.update_text bid [] fs uf).head? =
      some (d.get_base_command_topic bid ++ pystr ".txt",
            Payload.str (pystr "\"\"")) := by
  refine ⟨?_, ?_, ?_⟩
  · simp [HASwitchPlate.update_colors]
  · simp [HASwitchPlate.update_colors]
  · simp [HASwitchPlate.update_text]; decide

/-- Claim C9: an update request whose device name does not resolve in the
registry publishes nothing at all, for both `update_colors` and
`update_message`. -/
theorem C9_unknown_device_publishes_nothing (registry : List (PyStr × HASwitchPlate))
    (node_name bid msg : PyStr) (bg fg : Option PyStr) (fs : Int) (uf : Bool)
    (h : lookupDevice registry node_name = none) :
    handle_update_colors registry node_name bid bg fg = [] ∧
    handle_update_message registry node_name bid msg fs uf = [] := by
  constructor
  · simp [handle_update_colors, h]
  · simp [handle_update_message, h]

/-- Claim C9 witness: against a registry holding only `kitchen`, update
requests for `garage` publish nothing. -/
theorem C9_unknown_device_publishes_nothing_witness :
    handle_update_colors
      [(pystr "kitchen",
        { name := pystr "kitchen", command_topic := pystr "hasp/kitchen/command/",
          state_topic := some (pystr "hasp/kitchen/state/#"), is_group := false })]
      (pystr "garage") (pystr "p1b3") (some (pystr "#FF0000")) none = [] ∧
    handle_update_message
      [(pystr "kitchen",
        { name := pystr "kitchen", command_topic := pystr "hasp/kitchen/command/",
          state_topic := some (pystr "hasp/kitchen/state/#"), is_group := false })]
      (pystr "garage") (pystr "p1b3") (pystr "Hi") 1 true = [] :=
  C9_unknown_device_publishes_nothing
    [(pystr "kitchen",
      { name := pystr "kitchen", command_topic := pystr "hasp/kitchen/command/",
        state_topic := some (pystr "hasp/kitchen/state/#"), is_group := false })]
    (pystr "garage") (pystr "p1b3") (pystr "Hi") (some (pystr "#FF0000")) none 1 true
    (by decide)
